import Mathlib

/-!
Verification of the AI-collaboration framework's decision workflow.

Shallow embedding of the XState v5 machines of the repository:
  * `losscut-judgment.ts`  — loss-cut judgment engine (LC),
  * `verification-loop.ts` — verification loop (SP-3 / VL),
  * `l0l4-hierarchy.ts`    — recovery flow (RF) + escalation judgment (ES),
  * `main-flow.ts`         — orchestrator (MF).

State machines are embedded as inductive state types plus explicit step
functions; `always` / `onDone` eventless transitions become epsilon-step
functions; the `Date.now()` reads of the source become an explicit `now : Int`
argument; externally injected XState actions (`provide`) become explicit
function parameters, with the base machine's no-op actions as the identity.
-/

namespace AICollab

/-! ## Data model (`types.ts`) -/

/-- `ErrorInfo.step` field: the check kind (`"typecheck" | "lint" | "test"`). -/
inductive CheckStep where
  | typecheck
  | lint
  | test
deriving DecidableEq, Repr

/-- `ErrorInfo` (`types.ts`): one failure event produced by a check. -/
structure ErrorInfo where
  step : CheckStep
  message : String
  timestamp : Int
deriving DecidableEq, Repr

/-- `ErrorRecord.complexityDelta` values (`"increased" | "unchanged" | "decreased"`). -/
inductive ComplexityDelta where
  | increased
  | unchanged
  | decreased
deriving DecidableEq, Repr

/-- `ErrorRecord` (`types.ts`): one entry of the append-only failure history. -/
structure ErrorRecord where
  error : ErrorInfo
  fixAttempt : String
  complexityDelta : ComplexityDelta
deriving DecidableEq, Repr

/-- `PrincipleCheckResult` (`types.ts`). -/
structure PrincipleCheckResult where
  passed : Bool
  violations : List String
deriving DecidableEq, Repr

/-- `LossCutDecision` (`types.ts`): `"continue" | "cut"`. -/
inductive LossCutDecision where
  | cont
  | cut
deriving DecidableEq, Repr

/-- `LossCutContext` (`types.ts`): the LC judgment's input/working state. -/
structure LossCutContext where
  errorCount : Nat
  startedAt : Int
  lastError : Option ErrorInfo
  errorHistory : List ErrorRecord
  lossCutDecision : Option LossCutDecision
deriving DecidableEq, Repr

/-! ## Loss-cut guard functions (`losscut-judgment.ts`, lines 30–61) -/

/-- `checkErrorCount3OrMore` (LC-GW1): `ctx.errorCount >= 3`. -/
def checkErrorCount3OrMore (ctx : LossCutContext) : Bool :=
  decide (ctx.errorCount ≥ 3)

/-- `checkOver30Min` (LC-GW2): `Date.now() - ctx.startedAt >= 1800000`.
The source's `Date.now()` is made an explicit `now` argument. -/
def checkOver30Min (ctx : LossCutContext) (now : Int) : Bool :=
  decide (now - ctx.startedAt ≥ 1800000)

/-- `checkGrowingComplexity` (LC-GW3): the most recent history entry's
`complexityDelta === 'increased'` (optional chaining: `false` on empty history). -/
def checkGrowingComplexity (ctx : LossCutContext) : Bool :=
  match ctx.errorHistory.getLast? with
  | some latest => decide (latest.complexityDelta = ComplexityDelta.increased)
  | none => false

/-- `checkRecurringError` (LC-GW4): the current failure's `(message, step)`
pair occurs in `errorHistory.slice(0, -1)` — the history minus its last
(just-appended) entry; `false` when `lastError` is `null`. -/
def checkRecurringError (ctx : LossCutContext) : Bool :=
  match ctx.lastError with
  | none => false
  | some current =>
      ctx.errorHistory.dropLast.any fun record =>
        decide (record.error.message = current.message) &&
        decide (record.error.step = current.step)

/-! ## The LC state chain (`lossCutJudgmentMachine`) -/

/-- States of `lossCutJudgmentMachine` (`losscut-judgment.ts`, lines 100–180). -/
inductive LCState where
  | recordErrorState
  | check3Times
  | check30Min
  | checkComplexity
  | checkRecurrence
  | continueFix
  | lossCutConfirmed
deriving DecidableEq, Repr

/-- One eventless (`always`) step of the LC chain: each `check*` state either
confirms the cut (assigning `lossCutDecision := 'cut'`) or falls through to
the next condition; `checkRecurrence`'s fallback assigns `'continue'`.
`recordErrorState` waits for the external `ERROR_STATE_RECORDED` event and the
two final states have no outgoing transitions, so they map to `none`. -/
def lcStep (now : Int) : LCState × LossCutContext → Option (LCState × LossCutContext)
  | (LCState.recordErrorState, _) => none
  | (LCState.check3Times, ctx) =>
      if checkErrorCount3OrMore ctx then
        some (LCState.lossCutConfirmed, { ctx with lossCutDecision := some LossCutDecision.cut })
      else
        some (LCState.check30Min, ctx)
  | (LCState.check30Min, ctx) =>
      if checkOver30Min ctx now then
        some (LCState.lossCutConfirmed, { ctx with lossCutDecision := some LossCutDecision.cut })
      else
        some (LCState.checkComplexity, ctx)
  | (LCState.checkComplexity, ctx) =>
      if checkGrowingComplexity ctx then
        some (LCState.lossCutConfirmed, { ctx with lossCutDecision := some LossCutDecision.cut })
      else
        some (LCState.checkRecurrence, ctx)
  | (LCState.checkRecurrence, ctx) =>
      if checkRecurringError ctx then
        some (LCState.lossCutConfirmed, { ctx with lossCutDecision := some LossCutDecision.cut })
      else
        some (LCState.continueFix, { ctx with lossCutDecision := some LossCutDecision.cont })
  | (LCState.continueFix, _) => none
  | (LCState.lossCutConfirmed, _) => none

/-- Run the eventless chain with the given fuel, returning the list of visited
states (head = start state) and the context at the end.  Fuel `6` is enough
for the whole chain. -/
def lcRunFrom : Nat → Int → LCState → LossCutContext → List LCState × LossCutContext
  | 0, _, s, ctx => ([s], ctx)
  | n + 1, now, s, ctx =>
      match lcStep now (s, ctx) with
      | none => ([s], ctx)
      | some (s', ctx') =>
          let rec' := lcRunFrom n now s' ctx'
          (s :: rec'.1, rec'.2)

/-- The LC judgment pass: after the external `ERROR_STATE_RECORDED` event the
chain starts at `check3Times`; the visited states of the pass. -/
def lcVisited (ctx : LossCutContext) (now : Int) : List LCState :=
  (lcRunFrom 6 now LCState.check3Times ctx).1

/-- The context after the LC judgment pass. -/
def lcFinalCtx (ctx : LossCutContext) (now : Int) : LossCutContext :=
  (lcRunFrom 6 now LCState.check3Times ctx).2

/-- The machine's `output`: `context.lossCutDecision ?? 'continue'`
(`losscut-judgment.ts`, lines 183–185). -/
def lcOutputDecision (ctx : LossCutContext) (now : Int) : LossCutDecision :=
  (lcFinalCtx ctx now).lossCutDecision.getD LossCutDecision.cont

/-- Closed form of one LC judgment pass: the visited state list and the final
context, as a function of the four guard values. -/
theorem lcRun_closed_form (ctx : LossCutContext) (now : Int) :
    (lcRunFrom 6 now LCState.check3Times ctx =
      if checkErrorCount3OrMore ctx then
        ([LCState.check3Times, LCState.lossCutConfirmed],
          { ctx with lossCutDecision := some LossCutDecision.cut })
      else if checkOver30Min ctx now then
        ([LCState.check3Times, LCState.check30Min, LCState.lossCutConfirmed],
          { ctx with lossCutDecision := some LossCutDecision.cut })
      else if checkGrowingComplexity ctx then
        ([LCState.check3Times, LCState.check30Min, LCState.checkComplexity,
          LCState.lossCutConfirmed],
          { ctx with lossCutDecision := some LossCutDecision.cut })
      else if checkRecurringError ctx then
        ([LCState.check3Times, LCState.check30Min, LCState.checkComplexity,
          LCState.checkRecurrence, LCState.lossCutConfirmed],
          { ctx with lossCutDecision := some LossCutDecision.cut })
      else
        ([LCState.check3Times, LCState.check30Min, LCState.checkComplexity,
          LCState.checkRecurrence, LCState.continueFix],
          { ctx with lossCutDecision := some LossCutDecision.cont })) := by
  by_cases h1 : checkErrorCount3OrMore ctx <;>
    by_cases h2 : checkOver30Min ctx now <;>
      by_cases h3 : checkGrowingComplexity ctx <;>
        by_cases h4 : checkRecurringError ctx <;>
          simp [lcRunFrom, lcStep, h1, h2, h3, h4]

/-- The LC output decision equals the short-circuit disjunction of the four
guard conditions. -/
theorem lcOutputDecision_eq (ctx : LossCutContext) (now : Int) :
    lcOutputDecision ctx now =
      (if checkErrorCount3OrMore ctx || checkOver30Min ctx now ||
          checkGrowingComplexity ctx || checkRecurringError ctx then
        LossCutDecision.cut
      else
        LossCutDecision.cont) := by
  unfold lcOutputDecision lcFinalCtx
  rw [lcRun_closed_form]
  by_cases h1 : checkErrorCount3OrMore ctx <;>
    by_cases h2 : checkOver30Min ctx now <;>
      by_cases h3 : checkGrowingComplexity ctx <;>
        by_cases h4 : checkRecurringError ctx <;>
          simp [h1, h2, h3, h4]

/-! ## Claim C2: the four cut conditions, as an if-and-only-if -/

/-- C2: for every `LossCutState` whose current failure has already been
appended to the failure history (its `lastError` is the `error` of the last
history entry), the loss-cut judgment returns `cut` iff at least one of the
four conditions holds — (1) `errorCount >= 3`, (2) thirty minutes elapsed,
(3) the most recent record's complexity trend is `increased`, (4) the current
failure's `(step, message)` pair recurs among the earlier history entries
(history minus the just-appended last entry) — and returns `continue` when
none of them hold. -/
theorem lc_cut_iff_four_conditions
    (ctx : LossCutContext) (now : Int) (cur : ErrorInfo) (r : ErrorRecord)
    (hcur : ctx.lastError = some cur)
    (hrec : ctx.errorHistory.getLast? = some r)
    (_hr : r.error = cur) :
    (lcOutputDecision ctx now = LossCutDecision.cut ↔
      (ctx.errorCount ≥ 3 ∨
       now - ctx.startedAt ≥ 1800000 ∨
       r.complexityDelta = ComplexityDelta.increased ∨
       ∃ q ∈ ctx.errorHistory.dropLast,
         q.error.message = cur.message ∧ q.error.step = cur.step)) ∧
    (¬(ctx.errorCount ≥ 3 ∨
       now - ctx.startedAt ≥ 1800000 ∨
       r.complexityDelta = ComplexityDelta.increased ∨
       ∃ q ∈ ctx.errorHistory.dropLast,
         q.error.message = cur.message ∧ q.error.step = cur.step) →
      lcOutputDecision ctx now = LossCutDecision.cont) := by
  have hb : (checkErrorCount3OrMore ctx || checkOver30Min ctx now ||
      checkGrowingComplexity ctx || checkRecurringError ctx) = true ↔
      (ctx.errorCount ≥ 3 ∨
       now - ctx.startedAt ≥ 1800000 ∨
       r.complexityDelta = ComplexityDelta.increased ∨
       ∃ q ∈ ctx.errorHistory.dropLast,
         q.error.message = cur.message ∧ q.error.step = cur.step) := by
    simp [checkErrorCount3OrMore, checkOver30Min, checkGrowingComplexity,
      checkRecurringError, hrec, hcur, List.any_eq_true, or_assoc]
  have key : lcOutputDecision ctx now = LossCutDecision.cut ↔
      (ctx.errorCount ≥ 3 ∨
       now - ctx.startedAt ≥ 1800000 ∨
       r.complexityDelta = ComplexityDelta.increased ∨
       ∃ q ∈ ctx.errorHistory.dropLast,
         q.error.message = cur.message ∧ q.error.step = cur.step) := by
    rw [lcOutputDecision_eq, ← hb]
    cases hbb : (checkErrorCount3OrMore ctx || checkOver30Min ctx now ||
        checkGrowingComplexity ctx || checkRecurringError ctx) <;> simp [hbb]
  refine ⟨key, fun hn => ?_⟩
  rcases hdec : lcOutputDecision ctx now with _ | _
  · rfl
  · exact absurd (key.mp hdec) hn

/-- Concrete input for the C2 witness: a lint failure recurring in history. -/
def c2ErrorW : ErrorInfo := { step := CheckStep.lint, message := "E", timestamp := 5 }

/-- Concrete record for the C2 witness. -/
def c2RecordW : ErrorRecord :=
  { error := c2ErrorW, fixAttempt := "", complexityDelta := ComplexityDelta.unchanged }

/-- Concrete loss-cut state for the C2 witness: the current failure is the
last history entry and it recurs earlier in the history. -/
def c2CtxW : LossCutContext :=
  { errorCount := 1, startedAt := 0, lastError := some c2ErrorW,
    errorHistory := [c2RecordW, c2RecordW], lossCutDecision := none }

/-- Witness for C2: the theorem applies at a concrete state and its
recurrence condition makes the decision `cut`. -/
theorem lc_cut_iff_four_conditions_witness :
    c2CtxW.lastError = some c2ErrorW ∧
    c2CtxW.errorHistory.getLast? = some c2RecordW ∧
    c2RecordW.error = c2ErrorW ∧
    lcOutputDecision c2CtxW 0 = LossCutDecision.cut := by
  refine ⟨rfl, rfl, rfl, ?_⟩
  exact (lc_cut_iff_four_conditions c2CtxW 0 c2ErrorW c2RecordW rfl rfl rfl).1.mpr
    (Or.inr (Or.inr (Or.inr ⟨c2RecordW, by decide, by decide⟩)))

/-! ## Claim C3: short-circuit of condition 1 -/

/-- C3: with `errorCount >= 3` the judgment pass visits exactly
`check3Times` then `lossCutConfirmed`; the `check30Min`, `checkComplexity`
and `checkRecurrence` states are never entered, and the decision is `cut`. -/
theorem lc_short_circuit_first_condition
    (ctx : LossCutContext) (now : Int) (h : ctx.errorCount ≥ 3) :
    lcVisited ctx now = [LCState.check3Times, LCState.lossCutConfirmed] ∧
    LCState.check30Min ∉ lcVisited ctx now ∧
    LCState.checkComplexity ∉ lcVisited ctx now ∧
    LCState.checkRecurrence ∉ lcVisited ctx now ∧
    lcOutputDecision ctx now = LossCutDecision.cut := by
  have hb : checkErrorCount3OrMore ctx = true := by
    simp [checkErrorCount3OrMore, h]
  have hv : lcVisited ctx now = [LCState.check3Times, LCState.lossCutConfirmed] := by
    unfold lcVisited
    rw [lcRun_closed_form]
    simp [hb]
  refine ⟨hv, ?_, ?_, ?_, ?_⟩
  · rw [hv]; decide
  · rw [hv]; decide
  · rw [hv]; decide
  · rw [lcOutputDecision_eq]; simp [hb]

/-- Concrete state for the C3 witness: the failure counter already reached 3. -/
def c3CtxW : LossCutContext :=
  { errorCount := 3, startedAt := 0, lastError := none,
    errorHistory := [], lossCutDecision := none }

/-- Witness for C3: a concrete state with `errorCount = 3` takes the
two-state path and decides `cut`. -/
theorem lc_short_circuit_first_condition_witness :
    lcVisited c3CtxW 0 = [LCState.check3Times, LCState.lossCutConfirmed] ∧
    lcOutputDecision c3CtxW 0 = LossCutDecision.cut := by
  have h := lc_short_circuit_first_condition c3CtxW 0 (by decide)
  exact ⟨h.1, h.2.2.2.2⟩

/-! ## Claim C9: purity / determinism / totality of the judgment -/

/-- Concrete state for the C9 counterexample: a fresh, empty judgment state. -/
def c9CtxW : LossCutContext :=
  { errorCount := 0, startedAt := 0, lastError := none,
    errorHistory := [], lossCutDecision := none }

/-- C9 counterexample: the decision is not a function of the `LossCutState`
alone — the same state judged at clock 0 yields `continue` and judged at
clock 1800000 yields `cut` (the source's `checkOver30Min` reads `Date.now()`). -/
theorem lc_decision_depends_on_clock :
    lcOutputDecision c9CtxW 0 = LossCutDecision.cont ∧
    lcOutputDecision c9CtxW 1800000 = LossCutDecision.cut := by
  exact ⟨rfl, rfl⟩

/-- C9 (amended): the loss-cut judgment is a pure, deterministic, total
function of its input state *together with the current clock reading*: every
pass terminates in one of the two decisions, the judgment pass ends in one of
the two final states, and the output is exactly the short-circuit disjunction
of the four conditions evaluated at `(state, now)` — so two calls with
identical state and clock yield identical output. -/
theorem lc_judge_total_deterministic (ctx : LossCutContext) (now : Int) :
    (lcOutputDecision ctx now = LossCutDecision.cut ∨
     lcOutputDecision ctx now = LossCutDecision.cont) ∧
    lcOutputDecision ctx now =
      (if checkErrorCount3OrMore ctx || checkOver30Min ctx now ||
          checkGrowingComplexity ctx || checkRecurringError ctx then
        LossCutDecision.cut
      else
        LossCutDecision.cont) ∧
    ((lcVisited ctx now).getLast? = some LCState.continueFix ∨
     (lcVisited ctx now).getLast? = some LCState.lossCutConfirmed) := by
  refine ⟨?_, lcOutputDecision_eq ctx now, ?_⟩
  · rw [lcOutputDecision_eq]
    split
    · exact Or.inl rfl
    · exact Or.inr rfl
  · unfold lcVisited
    rw [lcRun_closed_form]
    by_cases h1 : checkErrorCount3OrMore ctx <;>
      by_cases h2 : checkOver30Min ctx now <;>
        by_cases h3 : checkGrowingComplexity ctx <;>
          by_cases h4 : checkRecurringError ctx <;>
            simp [h1, h2, h3, h4]

/-! ## Recovery flow (RF) + escalation judgment (ES)
(`l0l4-hierarchy.ts`, `recoveryFlowMachine`, lines 230–698) -/

/-- `ProblemAnalysis` (`types.ts`): the recovery flow's analysis result. -/
structure ProblemAnalysis where
  verbalization : String
  causeAnalysis : String
  essenceIdentification : String
  hasSecurityIssue : Bool
  hasProductionImpact : Bool
  hasDataLossRisk : Bool
  retreatCount : Int
  isUnknownCause : Bool
  isOutOfSkillScope : Bool
deriving DecidableEq, Repr

/-- `FailureRecord` (`types.ts`): the CLAUDE.md learning record. -/
structure RFFailureRecord where
  pattern : String
  workaround : String
  recordedAt : Int
deriving DecidableEq, Repr

/-- `EscalationResult` (`types.ts`): `"escalate" | "self"`. -/
inductive EscalationResult where
  | escalate
  | self
deriving DecidableEq, Repr

/-- The four remediation approaches of `RecoveryFlowContext.selectedApproach`. -/
inductive Approach where
  | A
  | B
  | C
  | D
deriving DecidableEq, Repr

/-- `RecoveryFlowContext` (`types.ts`). -/
structure RFContext where
  lastError : Option ErrorInfo
  errorHistory : List ErrorRecord
  analysisResult : Option ProblemAnalysis
  selectedApproach : Option Approach
  escalationResult : Option EscalationResult
  failureRecord : Option RFFailureRecord
  shouldShareWithTeam : Bool
deriving DecidableEq, Repr

/-- `checkImmediateEscalationNeeded` (`l0l4-hierarchy.ts`, lines 279–288):
security issue, production impact or data-loss risk; `false` on `null`. -/
def checkImmediateEscalationNeeded : Option ProblemAnalysis → Bool
  | none => false
  | some a => a.hasSecurityIssue || a.hasProductionImpact || a.hasDataLossRisk

/-- `checkDelayedEscalationNeeded` (`l0l4-hierarchy.ts`, lines 294–303):
three retreats, unknown cause or out-of-skill scope; `false` on `null`. -/
def checkDelayedEscalationNeeded : Option ProblemAnalysis → Bool
  | none => false
  | some a =>
      decide (a.retreatCount ≥ 3) || a.isUnknownCause || a.isOutOfSkillScope

/-- Sub-states of the `problemAnalysis` compound state. -/
inductive PAState where
  | verbalizeProblem
  | analyzeCause
  | identifyEssence
deriving DecidableEq, Repr

/-- Sub-states of the `escalationJudgment` (ES) compound state. -/
inductive ESState where
  | checkImmediate
  | executeImmediate
  | check30Min
  | consider30Min
  | escalationConfirmed
  | selfResolution
deriving DecidableEq, Repr

/-- Sub-states of the `directResolution` (approach A) compound state. -/
inductive DRState where
  | humanDirectFix
  | askAiExplanation
deriving DecidableEq, Repr

/-- States of `recoveryFlowMachine`. -/
inductive RFState where
  | problemAnalysis (sub : PAState)
  | escalationCheck
  | escalationJudgment (sub : ESState)
  | approachSelection
  | directResolution (sub : DRState)
  | redecompose
  | resetContext
  | consultTeam
  | recordToClaudeMd
  | documentWorkaround
  | teamShareDecision
  | shareWithTeam
  | recoveryComplete
deriving DecidableEq, Repr

/-- `RecoveryFlowEvent` (`types.ts`). -/
inductive RFEvent where
  | problemVerbalized
  | causeAnalyzed
  | essenceIdentified (analysisResult : ProblemAnalysis)
  | escalationDecided
  | humanFixComplete
  | aiExplanationReceived
  | redecomposeComplete
  | contextResetComplete
  | teamConsulted
  | claudeMdRecorded
  | workaroundDocumented
  | teamShared
deriving DecidableEq, Repr

/-- A configuration of the recovery-flow machine. -/
structure RFConfig where
  state : RFState
  ctx : RFContext
deriving DecidableEq, Repr

/-- The externally injected entry actions of `recoveryFlowMachine` (XState
`provide`): a context transformation run on entry to each state.  The base
machine's entry actions are all no-ops (`rfNoEff`); tests inject e.g. an
assign for `selectApproach`. -/
def RFEff : Type := RFState → RFContext → RFContext

/-- The base machine's no-op entry actions. -/
def rfNoEff : RFEff := fun _ ctx => ctx

/-- Enter a state: run its (injected) entry actions on the context. -/
def rfEnter (eff : RFEff) (s : RFState) (ctx : RFContext) : RFConfig :=
  { state := s, ctx := eff s ctx }

/-- Event-driven transitions of `recoveryFlowMachine` (its `on:` clauses).
`none` when the configuration does not handle the event. -/
def rfStep (eff : RFEff) (c : RFConfig) (e : RFEvent) : Option RFConfig :=
  match c.state, e with
  | RFState.problemAnalysis PAState.verbalizeProblem, RFEvent.problemVerbalized =>
      some (rfEnter eff (RFState.problemAnalysis PAState.analyzeCause) c.ctx)
  | RFState.problemAnalysis PAState.analyzeCause, RFEvent.causeAnalyzed =>
      some (rfEnter eff (RFState.problemAnalysis PAState.identifyEssence) c.ctx)
  | RFState.problemAnalysis PAState.identifyEssence, RFEvent.essenceIdentified a =>
      some (rfEnter eff RFState.escalationCheck { c.ctx with analysisResult := some a })
  | RFState.escalationJudgment ESState.executeImmediate, RFEvent.escalationDecided =>
      some (rfEnter eff (RFState.escalationJudgment ESState.escalationConfirmed)
        { c.ctx with escalationResult := some EscalationResult.escalate })
  | RFState.escalationJudgment ESState.consider30Min, RFEvent.escalationDecided =>
      some (rfEnter eff (RFState.escalationJudgment ESState.escalationConfirmed)
        { c.ctx with escalationResult := some EscalationResult.escalate })
  | RFState.directResolution DRState.humanDirectFix, RFEvent.humanFixComplete =>
      some (rfEnter eff (RFState.directResolution DRState.askAiExplanation) c.ctx)
  | RFState.directResolution DRState.askAiExplanation, RFEvent.aiExplanationReceived =>
      some (rfEnter eff RFState.recordToClaudeMd c.ctx)
  | RFState.redecompose, RFEvent.redecomposeComplete =>
      some (rfEnter eff RFState.recordToClaudeMd c.ctx)
  | RFState.resetContext, RFEvent.contextResetComplete =>
      some (rfEnter eff RFState.recordToClaudeMd c.ctx)
  | RFState.consultTeam, RFEvent.teamConsulted =>
      some (rfEnter eff RFState.recordToClaudeMd c.ctx)
  | RFState.recordToClaudeMd, RFEvent.claudeMdRecorded =>
      some (rfEnter eff RFState.documentWorkaround c.ctx)
  | RFState.documentWorkaround, RFEvent.workaroundDocumented =>
      some (rfEnter eff RFState.teamShareDecision c.ctx)
  | RFState.shareWithTeam, RFEvent.teamShared =>
      some (rfEnter eff RFState.recoveryComplete c.ctx)
  | _, _ => none

/-- Eventless transitions of `recoveryFlowMachine`: its `always` clauses and
the `onDone` dispatch of the ES compound state. -/
def rfEps (eff : RFEff) (c : RFConfig) : Option RFConfig :=
  match c.state with
  | RFState.escalationCheck =>
      if checkImmediateEscalationNeeded c.ctx.analysisResult then
        some (rfEnter eff (RFState.escalationJudgment ESState.checkImmediate) c.ctx)
      else
        some (rfEnter eff RFState.approachSelection c.ctx)
  | RFState.escalationJudgment ESState.checkImmediate =>
      if checkImmediateEscalationNeeded c.ctx.analysisResult then
        some (rfEnter eff (RFState.escalationJudgment ESState.executeImmediate) c.ctx)
      else
        some (rfEnter eff (RFState.escalationJudgment ESState.check30Min) c.ctx)
  | RFState.escalationJudgment ESState.check30Min =>
      if checkDelayedEscalationNeeded c.ctx.analysisResult then
        some (rfEnter eff (RFState.escalationJudgment ESState.consider30Min) c.ctx)
      else
        some (rfEnter eff (RFState.escalationJudgment ESState.selfResolution)
          { c.ctx with escalationResult := some EscalationResult.self })
  | RFState.escalationJudgment ESState.escalationConfirmed =>
      if c.ctx.escalationResult = some EscalationResult.escalate then
        some (rfEnter eff RFState.consultTeam c.ctx)
      else
        some (rfEnter eff RFState.approachSelection c.ctx)
  | RFState.escalationJudgment ESState.selfResolution =>
      if c.ctx.escalationResult = some EscalationResult.escalate then
        some (rfEnter eff RFState.consultTeam c.ctx)
      else
        some (rfEnter eff RFState.approachSelection c.ctx)
  | RFState.approachSelection =>
      match c.ctx.selectedApproach with
      | some Approach.A =>
          some (rfEnter eff (RFState.directResolution DRState.humanDirectFix) c.ctx)
      | some Approach.B => some (rfEnter eff RFState.redecompose c.ctx)
      | some Approach.C => some (rfEnter eff RFState.resetContext c.ctx)
      | _ => some (rfEnter eff (RFState.escalationJudgment ESState.checkImmediate) c.ctx)
  | RFState.teamShareDecision =>
      if c.ctx.shouldShareWithTeam then
        some (rfEnter eff RFState.shareWithTeam c.ctx)
      else
        some (rfEnter eff RFState.recoveryComplete c.ctx)
  | _ => none

/-- `RecoveryFlowOutput` (`types.ts`). -/
structure RecoveryFlowOutput where
  recovered : Bool
deriving DecidableEq, Repr

/-- The machine's `output` (`l0l4-hierarchy.ts`, lines 695–697):
always `{recovered: true}`, independent of the context. -/
def rfOutput (_ctx : RFContext) : RecoveryFlowOutput :=
  { recovered := true }

/-- The machine's initial configuration over a given start context. -/
def rfInit (eff : RFEff) (ctx : RFContext) : RFConfig :=
  rfEnter eff (RFState.problemAnalysis PAState.verbalizeProblem) ctx

/-- States at or after the mandatory `recordToClaudeMd` join point. -/
def rfPostRecording : RFState → Bool
  | RFState.recordToClaudeMd => true
  | RFState.documentWorkaround => true
  | RFState.teamShareDecision => true
  | RFState.shareWithTeam => true
  | RFState.recoveryComplete => true
  | _ => false

/-- A run of the recovery-flow machine that never enters `recordToClaudeMd`:
each step is an event step (`rfStep`) or an eventless step (`rfEps`) whose
target is not the recording state. -/
inductive RFAvoidRecord (eff : RFEff) : RFConfig → RFConfig → Prop where
  | refl (c : RFConfig) : RFAvoidRecord eff c c
  | evt {a b c : RFConfig} (e : RFEvent) (hstep : rfStep eff a e = some b)
      (hne : b.state ≠ RFState.recordToClaudeMd)
      (htail : RFAvoidRecord eff b c) : RFAvoidRecord eff a c
  | eps {a b c : RFConfig} (hstep : rfEps eff a = some b)
      (hne : b.state ≠ RFState.recordToClaudeMd)
      (htail : RFAvoidRecord eff b c) : RFAvoidRecord eff a c

/-- Source/target analysis of the event transitions: no event transition
targets `shareWithTeam`, and every transition into a post-recording state
other than `recordToClaudeMd` itself starts in a post-recording state. -/
theorem rfStep_src_tgt (eff : RFEff) {a b : RFConfig} {e : RFEvent}
    (h : rfStep eff a e = some b) :
    b.state ≠ RFState.shareWithTeam ∧
    (rfPostRecording b.state = true → b.state ≠ RFState.recordToClaudeMd →
      rfPostRecording a.state = true) := by
  obtain ⟨sa, ca⟩ := a
  obtain ⟨sb, cb⟩ := b
  cases sa with
  | problemAnalysis sub =>
      cases sub <;> cases e <;> simp_all [rfStep, rfEnter, rfPostRecording] <;> (rcases h with ⟨rfl, rfl⟩; decide)
  | escalationJudgment sub =>
      cases sub <;> cases e <;> simp_all [rfStep, rfEnter, rfPostRecording] <;> (rcases h with ⟨rfl, rfl⟩; decide)
  | directResolution sub =>
      cases sub <;> cases e <;> simp_all [rfStep, rfEnter, rfPostRecording] <;> (rcases h with ⟨rfl, rfl⟩; decide)
  | escalationCheck => cases e <;> simp_all [rfStep, rfEnter, rfPostRecording] <;> (rcases h with ⟨rfl, rfl⟩; decide)
  | approachSelection => cases e <;> simp_all [rfStep, rfEnter, rfPostRecording] <;> (rcases h with ⟨rfl, rfl⟩; decide)
  | redecompose => cases e <;> simp_all [rfStep, rfEnter, rfPostRecording] <;> (rcases h with ⟨rfl, rfl⟩; decide)
  | resetContext => cases e <;> simp_all [rfStep, rfEnter, rfPostRecording] <;> (rcases h with ⟨rfl, rfl⟩; decide)
  | consultTeam => cases e <;> simp_all [rfStep, rfEnter, rfPostRecording] <;> (rcases h with ⟨rfl, rfl⟩; decide)
  | recordToClaudeMd => cases e <;> simp_all [rfStep, rfEnter, rfPostRecording] <;> (rcases h with ⟨rfl, rfl⟩; decide)
  | documentWorkaround => cases e <;> simp_all [rfStep, rfEnter, rfPostRecording] <;> (rcases h with ⟨rfl, rfl⟩; decide)
  | teamShareDecision => cases e <;> simp_all [rfStep, rfEnter, rfPostRecording] <;> (rcases h with ⟨rfl, rfl⟩; decide)
  | shareWithTeam => cases e <;> simp_all [rfStep, rfEnter, rfPostRecording] <;> (rcases h with ⟨rfl, rfl⟩; decide)
  | recoveryComplete => cases e <;> simp_all [rfStep, rfEnter, rfPostRecording] <;> (rcases h with ⟨rfl, rfl⟩; decide)

/-- Source/target analysis of the eventless transitions: `shareWithTeam` is
entered only from `teamShareDecision` with the share flag set, and every
eventless transition into a post-recording state other than `recordToClaudeMd`
starts in a post-recording state. -/
theorem rfEps_src_tgt (eff : RFEff) {a b : RFConfig} (h : rfEps eff a = some b) :
    (b.state = RFState.shareWithTeam →
      a.state = RFState.teamShareDecision ∧ a.ctx.shouldShareWithTeam = true) ∧
    (rfPostRecording b.state = true → b.state ≠ RFState.recordToClaudeMd →
      rfPostRecording a.state = true) := by
  obtain ⟨sa, ca⟩ := a
  obtain ⟨sb, cb⟩ := b
  cases sa with
  | problemAnalysis sub => simp [rfEps] at h
  | escalationJudgment sub =>
      cases sub <;> simp only [rfEps] at h <;> (try split at h) <;>
        simp_all [rfEnter, rfPostRecording] <;> (rcases h with ⟨rfl, rfl⟩; decide)
  | directResolution sub => simp [rfEps] at h
  | escalationCheck =>
      simp only [rfEps] at h
      split at h <;> simp_all [rfEnter, rfPostRecording] <;> (rcases h with ⟨rfl, rfl⟩; decide)
  | approachSelection =>
      simp only [rfEps] at h
      rcases hsel : ca.selectedApproach with _ | ap
      · simp_all [rfEnter, rfPostRecording] <;> (rcases h with ⟨rfl, rfl⟩; decide)
      · cases ap <;> simp_all [rfEnter, rfPostRecording] <;> (rcases h with ⟨rfl, rfl⟩; decide)
  | redecompose => simp [rfEps] at h
  | resetContext => simp [rfEps] at h
  | consultTeam => simp [rfEps] at h
  | recordToClaudeMd => simp [rfEps] at h
  | documentWorkaround => simp [rfEps] at h
  | teamShareDecision =>
      simp only [rfEps] at h
      split at h <;> simp_all [rfEnter, rfPostRecording] <;> (rcases h with ⟨rfl, rfl⟩; decide)
  | shareWithTeam => simp [rfEps] at h
  | recoveryComplete => simp [rfEps] at h

/-- Along a run that never enters `recordToClaudeMd`, a configuration outside
the post-recording region never reaches the post-recording region. -/
theorem rfAvoid_post_invariant (eff : RFEff) :
    ∀ {a c : RFConfig}, RFAvoidRecord eff a c →
      rfPostRecording a.state = false → rfPostRecording c.state = false := by
  intro a c h
  induction h with
  | refl => exact id
  | @evt a b c e hstep hne htail ih =>
      intro ha
      refine ih ?_
      cases hpb : rfPostRecording b.state
      · rfl
      · exact absurd ((rfStep_src_tgt eff hstep).2 hpb hne) (by simp [ha])
  | @eps a b c hstep hne htail ih =>
      intro ha
      refine ih ?_
      cases hpb : rfPostRecording b.state
      · rfl
      · exact absurd ((rfEps_src_tgt eff hstep).2 hpb hne) (by simp [ha])

/-! ## Claim C8: the mandatory recording join point of the recovery flow -/

/-- C8: in the recovery flow — for any injected entry actions `eff` and any
start context — no run that avoids the `recordToClaudeMd` state can reach
`documentWorkaround`, `shareWithTeam` or the terminal `recoveryComplete`
(so every terminating run, on each of the four approaches, passes through
recording, and workaround documentation never precedes it); `shareWithTeam`
is entered only from `teamShareDecision` with the share flag set and never by
an event transition; and the flow's output is always `{recovered: true}`. -/
theorem rf_record_join_and_output (eff : RFEff) (ctx0 : RFContext) :
    (∀ c : RFConfig, RFAvoidRecord eff (rfInit eff ctx0) c →
      c.state ≠ RFState.documentWorkaround ∧
      c.state ≠ RFState.shareWithTeam ∧
      c.state ≠ RFState.recoveryComplete) ∧
    (∀ a b : RFConfig, rfEps eff a = some b → b.state = RFState.shareWithTeam →
      a.state = RFState.teamShareDecision ∧ a.ctx.shouldShareWithTeam = true) ∧
    (∀ (a b : RFConfig) (e : RFEvent), rfStep eff a e = some b →
      b.state ≠ RFState.shareWithTeam) ∧
    (∀ ctx : RFContext, rfOutput ctx = { recovered := true }) := by
  refine ⟨?_, ?_, ?_, fun _ => rfl⟩
  · intro c hc
    have h0 : rfPostRecording (rfInit eff ctx0).state = false := rfl
    have hpost := rfAvoid_post_invariant eff hc h0
    refine ⟨?_, ?_, ?_⟩ <;> intro hEq <;> rw [hEq] at hpost <;>
      simp [rfPostRecording] at hpost
  · intro a b h hb
    exact (rfEps_src_tgt eff h).1 hb
  · intro a b e h
    exact (rfStep_src_tgt eff h).1

/-- The machine's initial context (`l0l4-hierarchy.ts`, lines 402–410). -/
def rfCtxW : RFContext :=
  { lastError := none, errorHistory := [], analysisResult := none,
    selectedApproach := none, escalationResult := none, failureRecord := none,
    shouldShareWithTeam := false }

/-- Witness for C8: a concrete two-configuration recording-free run of the
base machine has not completed, and the output at the initial context is
`{recovered: true}`. -/
theorem rf_record_join_and_output_witness :
    (RFConfig.mk (RFState.problemAnalysis PAState.analyzeCause) rfCtxW).state ≠
      RFState.recoveryComplete ∧
    rfOutput rfCtxW = { recovered := true } := by
  have havoid : RFAvoidRecord rfNoEff (rfInit rfNoEff rfCtxW)
      (RFConfig.mk (RFState.problemAnalysis PAState.analyzeCause) rfCtxW) :=
    RFAvoidRecord.evt RFEvent.problemVerbalized rfl (by decide)
      (RFAvoidRecord.refl _)
  have h := rf_record_join_and_output rfNoEff rfCtxW
  exact ⟨(h.1 _ havoid).2.2, h.2.2.2 rfCtxW⟩

/-! ## Claim C4: two-tier escalation judgment -/

/-- C4: the escalation judgment is two-tiered.  If any of `hasSecurityIssue`,
`hasProductionImpact`, `hasDataLossRisk` is set, `checkImmediate` resolves to
`executeImmediate` (immediate urgency; the tier-2 state `check30Min` is never
entered, whatever the tier-2 fields hold) and the `ESCALATION_DECIDED`
confirmation lands in `escalationConfirmed` with result `escalate`.  Otherwise,
if any of `retreatCount >= 3`, `isUnknownCause`, `isOutOfSkillScope` is set,
the judgment passes through `check30Min` to `consider30Min` (delayed urgency)
and resolves to `escalate` after the external confirmation.  Otherwise it
resolves to `selfResolution` with result `self`.  These branches are
exhaustive, so no other outcome is possible. -/
theorem es_two_tier_precedence (a : ProblemAnalysis) (ctx : RFContext)
    (hctx : ctx.analysisResult = some a) :
    ((a.hasSecurityIssue = true ∨ a.hasProductionImpact = true ∨
        a.hasDataLossRisk = true) →
      rfEps rfNoEff
          { state := RFState.escalationJudgment ESState.checkImmediate, ctx := ctx } =
        some { state := RFState.escalationJudgment ESState.executeImmediate, ctx := ctx } ∧
      rfStep rfNoEff
          { state := RFState.escalationJudgment ESState.executeImmediate, ctx := ctx }
          RFEvent.escalationDecided =
        some { state := RFState.escalationJudgment ESState.escalationConfirmed,
               ctx := { ctx with escalationResult := some EscalationResult.escalate } }) ∧
    (a.hasSecurityIssue = false → a.hasProductionImpact = false →
      a.hasDataLossRisk = false →
      (3 ≤ a.retreatCount ∨ a.isUnknownCause = true ∨ a.isOutOfSkillScope = true) →
      rfEps rfNoEff
          { state := RFState.escalationJudgment ESState.checkImmediate, ctx := ctx } =
        some { state := RFState.escalationJudgment ESState.check30Min, ctx := ctx } ∧
      rfEps rfNoEff
          { state := RFState.escalationJudgment ESState.check30Min, ctx := ctx } =
        some { state := RFState.escalationJudgment ESState.consider30Min, ctx := ctx } ∧
      rfStep rfNoEff
          { state := RFState.escalationJudgment ESState.consider30Min, ctx := ctx }
          RFEvent.escalationDecided =
        some { state := RFState.escalationJudgment ESState.escalationConfirmed,
               ctx := { ctx with escalationResult := some EscalationResult.escalate } }) ∧
    (a.hasSecurityIssue = false → a.hasProductionImpact = false →
      a.hasDataLossRisk = false →
      a.retreatCount < 3 → a.isUnknownCause = false → a.isOutOfSkillScope = false →
      rfEps rfNoEff
          { state := RFState.escalationJudgment ESState.checkImmediate, ctx := ctx } =
        some { state := RFState.escalationJudgment ESState.check30Min, ctx := ctx } ∧
      rfEps rfNoEff
          { state := RFState.escalationJudgment ESState.check30Min, ctx := ctx } =
        some { state := RFState.escalationJudgment ESState.selfResolution,
               ctx := { ctx with escalationResult := some EscalationResult.self } }) := by
  refine ⟨?_, ?_, ?_⟩
  · intro h1
    have himm : checkImmediateEscalationNeeded ctx.analysisResult = true := by
      rcases h1 with h | h | h <;> simp [checkImmediateEscalationNeeded, hctx, h]
    exact ⟨by simp [rfEps, himm, rfEnter, rfNoEff], rfl⟩
  · intro hs hp hd h2
    have himm : checkImmediateEscalationNeeded ctx.analysisResult = false := by
      simp [checkImmediateEscalationNeeded, hctx, hs, hp, hd]
    have hdel : checkDelayedEscalationNeeded ctx.analysisResult = true := by
      rcases h2 with h | h | h <;> simp [checkDelayedEscalationNeeded, hctx, h]
    exact ⟨by simp [rfEps, himm, rfEnter, rfNoEff],
      by simp [rfEps, hdel, rfEnter, rfNoEff], rfl⟩
  · intro hs hp hd hr hu ho
    have himm : checkImmediateEscalationNeeded ctx.analysisResult = false := by
      simp [checkImmediateEscalationNeeded, hctx, hs, hp, hd]
    have hdel : checkDelayedEscalationNeeded ctx.analysisResult = false := by
      simp [checkDelayedEscalationNeeded, hctx, hu, ho]
      omega
    exact ⟨by simp [rfEps, himm, rfEnter, rfNoEff],
      by simp [rfEps, hdel, rfEnter, rfNoEff]⟩

/-- Concrete analysis for the C4 witness (the spec's scenario): a data-loss
risk with `retreatCount = 5`, so tier 1 and tier 2 both hold. -/
def c4AnalysisW : ProblemAnalysis :=
  { verbalization := "p", causeAnalysis := "c", essenceIdentification := "e",
    hasSecurityIssue := false, hasProductionImpact := false,
    hasDataLossRisk := true, retreatCount := 5, isUnknownCause := false,
    isOutOfSkillScope := false }

/-- Concrete recovery context for the C4 witness. -/
def c4CtxW : RFContext :=
  { lastError := none, errorHistory := [], analysisResult := some c4AnalysisW,
    selectedApproach := none, escalationResult := none, failureRecord := none,
    shouldShareWithTeam := false }

/-- Witness for C4: with a data-loss risk and `retreatCount = 5` the judgment
goes immediately to `executeImmediate` — tier 1 masks tier 2 entirely. -/
theorem es_two_tier_precedence_witness :
    rfEps rfNoEff
        { state := RFState.escalationJudgment ESState.checkImmediate, ctx := c4CtxW } =
      some { state := RFState.escalationJudgment ESState.executeImmediate,
             ctx := c4CtxW } := by
  exact ((es_two_tier_precedence c4AnalysisW c4CtxW rfl).1
    (Or.inr (Or.inr rfl))).1

/-! ## Verification loop (SP-3) (`verification-loop.ts`) -/

/-- `VerificationLoopContext` (`types.ts`): `LossCutContext` extended with the
current step and the two principle-monitor results. -/
structure VLContext extends LossCutContext where
  currentStep : CheckStep
  collaborationCheckResult : Option PrincipleCheckResult
  aiPrincipleCheckResult : Option PrincipleCheckResult
deriving DecidableEq, Repr

/-- `CheckResult` (`types.ts`): outcome of one verification step. -/
structure CheckResult where
  passed : Bool
  error : Option ErrorInfo
deriving DecidableEq, Repr

/-- States of `verificationLoopMachine`; the `lossCutJudgment` compound state
carries its LC sub-state. -/
inductive VLState where
  | typecheck
  | lint
  | test
  | lossCutJudgment (sub : LCState)
  | issueFix
  | verificationPassed
  | verificationFailed
deriving DecidableEq, Repr

/-- `VerificationLoopEvent` (`types.ts`). -/
inductive VLEvent where
  | typecheckComplete (result : CheckResult)
  | lintComplete (result : CheckResult)
  | testComplete (result : CheckResult)
  | errorStateRecorded
  | fixIssued
deriving DecidableEq, Repr

/-- A configuration of the verification-loop machine. -/
structure VLConfig where
  state : VLState
  ctx : VLContext
deriving DecidableEq, Repr

/-- The failure `assign` shared by the three stages
(`verification-loop.ts`, lines 129–153, 174–198, 219–243): increment the
counter, store the failure as `lastError`, and append a record whose
`complexityDelta` is fixed to `'unchanged'`. -/
def vlRecordFailure (ctx : VLContext) (err : ErrorInfo) : VLContext :=
  { ctx with
    errorCount := ctx.errorCount + 1,
    lastError := some err,
    errorHistory := ctx.errorHistory ++
      [{ error := err, fixAttempt := "", complexityDelta := ComplexityDelta.unchanged }] }

/-- Event-driven transitions of `verificationLoopMachine`.  The source's
failure branches read `e.result.error!` (non-null assertion), so a failing
check-complete event without a failure payload is a contract violation and is
rejected (`none`). -/
def vlStep (c : VLConfig) (e : VLEvent) : Option VLConfig :=
  match c.state, e with
  | VLState.typecheck, VLEvent.typecheckComplete res =>
      if res.passed then some { state := VLState.lint, ctx := c.ctx }
      else
        match res.error with
        | some err =>
            some { state := VLState.lossCutJudgment LCState.recordErrorState,
                   ctx := vlRecordFailure c.ctx err }
        | none => none
  | VLState.lint, VLEvent.lintComplete res =>
      if res.passed then some { state := VLState.test, ctx := c.ctx }
      else
        match res.error with
        | some err =>
            some { state := VLState.lossCutJudgment LCState.recordErrorState,
                   ctx := vlRecordFailure c.ctx err }
        | none => none
  | VLState.test, VLEvent.testComplete res =>
      if res.passed then some { state := VLState.verificationPassed, ctx := c.ctx }
      else
        match res.error with
        | some err =>
            some { state := VLState.lossCutJudgment LCState.recordErrorState,
                   ctx := vlRecordFailure c.ctx err }
        | none => none
  | VLState.lossCutJudgment LCState.recordErrorState, VLEvent.errorStateRecorded =>
      some { state := VLState.lossCutJudgment LCState.check3Times, ctx := c.ctx }
  | VLState.issueFix, VLEvent.fixIssued =>
      some { state := VLState.typecheck,
             ctx := { c.ctx with currentStep := CheckStep.typecheck, lossCutDecision := none } }
  | _, _ => none

/-- The root-level 30-minute `after` transition (`verification-loop.ts`,
lines 110–112): armed when the machine starts, it forces any non-final
configuration into `lossCutJudgment` once `1800000` ms have elapsed since
`startedAt`. -/
def vlTimeout (now : Int) (c : VLConfig) : Option VLConfig :=
  match c.state with
  | VLState.verificationPassed => none
  | VLState.verificationFailed => none
  | _ =>
      if now - c.ctx.startedAt ≥ 1800000 then
        some { state := VLState.lossCutJudgment LCState.recordErrorState, ctx := c.ctx }
      else
        none

/-- Eventless transitions of `verificationLoopMachine`: the LC `always` chain
(reusing the guard functions of `losscut-judgment.ts`) and the `onDone`
dispatch of the compound state (`isLossCutContinue`). -/
def vlEps (c : VLConfig) (now : Int) : Option VLConfig :=
  match c.state with
  | VLState.lossCutJudgment LCState.check3Times =>
      if checkErrorCount3OrMore c.ctx.toLossCutContext then
        some { state := VLState.lossCutJudgment LCState.lossCutConfirmed,
               ctx := { c.ctx with lossCutDecision := some LossCutDecision.cut } }
      else
        some { state := VLState.lossCutJudgment LCState.check30Min, ctx := c.ctx }
  | VLState.lossCutJudgment LCState.check30Min =>
      if checkOver30Min c.ctx.toLossCutContext now then
        some { state := VLState.lossCutJudgment LCState.lossCutConfirmed,
               ctx := { c.ctx with lossCutDecision := some LossCutDecision.cut } }
      else
        some { state := VLState.lossCutJudgment LCState.checkComplexity, ctx := c.ctx }
  | VLState.lossCutJudgment LCState.checkComplexity =>
      if checkGrowingComplexity c.ctx.toLossCutContext then
        some { state := VLState.lossCutJudgment LCState.lossCutConfirmed,
               ctx := { c.ctx with lossCutDecision := some LossCutDecision.cut } }
      else
        some { state := VLState.lossCutJudgment LCState.checkRecurrence, ctx := c.ctx }
  | VLState.lossCutJudgment LCState.checkRecurrence =>
      if checkRecurringError c.ctx.toLossCutContext then
        some { state := VLState.lossCutJudgment LCState.lossCutConfirmed,
               ctx := { c.ctx with lossCutDecision := some LossCutDecision.cut } }
      else
        some { state := VLState.lossCutJudgment LCState.continueFix,
               ctx := { c.ctx with lossCutDecision := some LossCutDecision.cont } }
  | VLState.lossCutJudgment LCState.continueFix =>
      if c.ctx.lossCutDecision = some LossCutDecision.cont then
        some { state := VLState.issueFix, ctx := c.ctx }
      else
        some { state := VLState.verificationFailed, ctx := c.ctx }
  | VLState.lossCutJudgment LCState.lossCutConfirmed =>
      if c.ctx.lossCutDecision = some LossCutDecision.cont then
        some { state := VLState.issueFix, ctx := c.ctx }
      else
        some { state := VLState.verificationFailed, ctx := c.ctx }
  | _ => none

/-- `SP3OutputExtended` (`types.ts`). -/
structure SP3OutputExtended where
  passed : Bool
  lossCut : Bool
  lastError : Option ErrorInfo
  errorHistory : List ErrorRecord
  principleViolation : Bool
deriving DecidableEq, Repr

/-- The machine's `output` (`verification-loop.ts`, lines 359–367):
`passed` iff the decision is not `cut`; `principleViolation` iff the stored
AI-principle check result exists and failed. -/
def vlOutput (ctx : VLContext) : SP3OutputExtended :=
  { passed := !(decide (ctx.lossCutDecision = some LossCutDecision.cut)),
    lossCut := decide (ctx.lossCutDecision = some LossCutDecision.cut),
    lastError := ctx.lastError,
    errorHistory := ctx.errorHistory,
    principleViolation :=
      match ctx.aiPrincipleCheckResult with
      | some r => decide (r.passed = false)
      | none => false }

/-- Names of the machine's declared actions (`verification-loop.ts`,
lines 64–93). -/
inductive VLAction where
  | runTypecheck
  | runLint
  | runTest
  | checkCollaborationPrinciples
  | checkAIPrinciples
  | recordCurrentErrorState
  | issueFixInstruction
deriving DecidableEq, Repr

/-- The `entry` action lists of each state (`verification-loop.ts`): every
check stage runs its check plus the two principle monitors on every entry,
including re-entries after a fix. -/
def vlEntryActions : VLState → List VLAction
  | VLState.typecheck =>
      [VLAction.runTypecheck, VLAction.checkCollaborationPrinciples,
       VLAction.checkAIPrinciples]
  | VLState.lint =>
      [VLAction.runLint, VLAction.checkCollaborationPrinciples,
       VLAction.checkAIPrinciples]
  | VLState.test =>
      [VLAction.runTest, VLAction.checkCollaborationPrinciples,
       VLAction.checkAIPrinciples]
  | VLState.lossCutJudgment LCState.recordErrorState =>
      [VLAction.recordCurrentErrorState]
  | VLState.issueFix => [VLAction.issueFixInstruction]
  | _ => []

/-- The machine's initial configuration (`verification-loop.ts`,
lines 96–106); `t` is the creation instant (`Date.now()`). -/
def vlInit (t : Int) : VLConfig :=
  { state := VLState.typecheck,
    ctx := { errorCount := 0, startedAt := t, lastError := none,
             errorHistory := [], lossCutDecision := none,
             currentStep := CheckStep.typecheck,
             collaborationCheckResult := none,
             aiPrincipleCheckResult := none } }

/-- Reachable configurations of the verification-loop machine started at
instant `t`: event steps, eventless steps and the 30-minute timer step. -/
inductive VLReach (t : Int) : VLConfig → Prop where
  | init : VLReach t (vlInit t)
  | evt {c c' : VLConfig} (e : VLEvent) (h : vlStep c e = some c')
      (hr : VLReach t c) : VLReach t c'
  | eps {c c' : VLConfig} (now : Int) (h : vlEps c now = some c')
      (hr : VLReach t c) : VLReach t c'
  | timer {c c' : VLConfig} (now : Int) (h : vlTimeout now c = some c')
      (hr : VLReach t c) : VLReach t c'

/-- Invariant of reachable verification-loop configurations: the armed
deadline base `startedAt` is never modified after loop entry, and every
record the loop appended to `errorHistory` has `complexityDelta` fixed to
`'unchanged'`. -/
theorem vlReach_ctx_invariant (t : Int) :
    ∀ c : VLConfig, VLReach t c →
      c.ctx.startedAt = t ∧
      ∀ r ∈ c.ctx.errorHistory, r.complexityDelta = ComplexityDelta.unchanged := by
  intro c h
  induction h with
  | init => exact ⟨rfl, by intro r hr; simp [vlInit] at hr⟩
  | @evt c c' e hstep hr ih =>
      obtain ⟨sc, cc⟩ := c
      obtain ⟨sc', cc'⟩ := c'
      cases sc with
      | lossCutJudgment sub =>
          cases sub <;>
            cases e <;>
              simp only [vlStep] at hstep <;>
              first
                | exact Option.noConfusion hstep
                | ((try simp only [Option.some.injEq, VLConfig.mk.injEq] at hstep)
                   obtain ⟨rfl, rfl⟩ := hstep
                   exact ⟨ih.1, fun r hrmem => ih.2 r hrmem⟩)
      | typecheck =>
          cases e <;>
            simp only [vlStep] at hstep <;>
            (try split at hstep) <;>
            (try split at hstep) <;>
            first
              | exact Option.noConfusion hstep
              | ((try simp only [Option.some.injEq, VLConfig.mk.injEq] at hstep)
                 obtain ⟨rfl, rfl⟩ := hstep
                 refine ⟨ih.1, ?_⟩
                 intro r hrmem
                 first
                   | exact ih.2 r hrmem
                   | (simp only [vlRecordFailure, List.mem_append,
                        List.mem_singleton] at hrmem
                      rcases hrmem with hmem | rfl
                      · exact ih.2 r hmem
                      · rfl))
      | lint =>
          cases e <;>
            simp only [vlStep] at hstep <;>
            (try split at hstep) <;>
            (try split at hstep) <;>
            first
              | exact Option.noConfusion hstep
              | ((try simp only [Option.some.injEq, VLConfig.mk.injEq] at hstep)
                 obtain ⟨rfl, rfl⟩ := hstep
                 refine ⟨ih.1, ?_⟩
                 intro r hrmem
                 first
                   | exact ih.2 r hrmem
                   | (simp only [vlRecordFailure, List.mem_append,
                        List.mem_singleton] at hrmem
                      rcases hrmem with hmem | rfl
                      · exact ih.2 r hmem
                      · rfl))
      | test =>
          cases e <;>
            simp only [vlStep] at hstep <;>
            (try split at hstep) <;>
            (try split at hstep) <;>
            first
              | exact Option.noConfusion hstep
              | ((try simp only [Option.some.injEq, VLConfig.mk.injEq] at hstep)
                 obtain ⟨rfl, rfl⟩ := hstep
                 refine ⟨ih.1, ?_⟩
                 intro r hrmem
                 first
                   | exact ih.2 r hrmem
                   | (simp only [vlRecordFailure, List.mem_append,
                        List.mem_singleton] at hrmem
                      rcases hrmem with hmem | rfl
                      · exact ih.2 r hmem
                      · rfl))
      | issueFix =>
          cases e <;>
            simp only [vlStep] at hstep <;>
            first
              | exact Option.noConfusion hstep
              | ((try simp only [Option.some.injEq, VLConfig.mk.injEq] at hstep)
                 obtain ⟨rfl, rfl⟩ := hstep
                 exact ⟨ih.1, fun r hrmem => ih.2 r hrmem⟩)
      | verificationPassed =>
          cases e <;> simp only [vlStep] at hstep <;> exact Option.noConfusion hstep
      | verificationFailed =>
          cases e <;> simp only [vlStep] at hstep <;> exact Option.noConfusion hstep
  | @eps c c' now hstep hr ih =>
      obtain ⟨sc, cc⟩ := c
      obtain ⟨sc', cc'⟩ := c'
      cases sc with
      | lossCutJudgment sub =>
          cases sub <;> simp only [vlEps] at hstep <;> (try split at hstep) <;>
            first
              | exact Option.noConfusion hstep
              | ((try simp only [Option.some.injEq, VLConfig.mk.injEq] at hstep)
                 obtain ⟨rfl, rfl⟩ := hstep
                 exact ⟨ih.1, fun r hrmem => ih.2 r hrmem⟩)
      | typecheck => simp [vlEps] at hstep
      | lint => simp [vlEps] at hstep
      | test => simp [vlEps] at hstep
      | issueFix => simp [vlEps] at hstep
      | verificationPassed => simp [vlEps] at hstep
      | verificationFailed => simp [vlEps] at hstep
  | @timer c c' now hstep hr ih =>
      obtain ⟨sc, cc⟩ := c
      obtain ⟨sc', cc'⟩ := c'
      cases sc <;> simp only [vlTimeout] at hstep <;> (try split at hstep) <;>
        first
          | exact Option.noConfusion hstep
          | ((try simp only [Option.some.injEq, VLConfig.mk.injEq] at hstep)
             obtain ⟨rfl, rfl⟩ := hstep
             exact ⟨ih.1, fun r hrmem => ih.2 r hrmem⟩)

/-! ## Claim C5: the single 30-minute wall-clock deadline -/

/-- C5: in every reachable configuration the deadline base `startedAt` still
equals the loop-entry instant `t` (armed once, never re-armed), and from any
check stage (`typecheck`, `lint` or `test`) the root `after` transition fires
into the loss-cut judgment exactly when `1800000` ms have elapsed — at
`t + 1800000` it forces entry into `lossCutJudgment`, one unit earlier it
does not fire. -/
theorem vl_timer_thirty_minutes (t : Int) (c : VLConfig) (h : VLReach t c) :
    c.ctx.startedAt = t ∧
    ((c.state = VLState.typecheck ∨ c.state = VLState.lint ∨
        c.state = VLState.test) →
      vlTimeout (t + 1800000) c =
        some { state := VLState.lossCutJudgment LCState.recordErrorState,
               ctx := c.ctx } ∧
      vlTimeout (t + 1800000 - 1) c = none) := by
  have hstart := (vlReach_ctx_invariant t c h).1
  refine ⟨hstart, ?_⟩
  intro hstage
  have h1 : t + 1800000 - c.ctx.startedAt ≥ 1800000 := by rw [hstart]; omega
  have h2 : ¬(t + 1800000 - 1 - c.ctx.startedAt ≥ 1800000) := by rw [hstart]; omega
  obtain ⟨sc, cc⟩ := c
  rcases hstage with hst | hst | hst <;>
    (simp only at hst; subst hst; constructor <;> simp [vlTimeout, h1, h2] at h1 h2 ⊢) <;>
    simp_all

/-- Witness for C5: from the freshly started loop (in `typecheck`), the timer
fires at exactly 1800000 ms and not at 1799999 ms. -/
theorem vl_timer_thirty_minutes_witness :
    vlTimeout 1800000 (vlInit 0) =
      some { state := VLState.lossCutJudgment LCState.recordErrorState,
             ctx := (vlInit 0).ctx } ∧
    vlTimeout (1800000 - 1) (vlInit 0) = none := by
  have h := (vl_timer_thirty_minutes 0 (vlInit 0) VLReach.init).2 (Or.inl rfl)
  simpa using h

/-! ## Claim C10: the complexity-increase condition is vacuous inside VL -/

/-- C10: every record that the verification loop appends on a check failure
has `complexityDelta = 'unchanged'`; consequently, in every reachable
configuration of the composed machine, `checkGrowingComplexity` (loss-cut
condition 3) is `false`, and the `checkComplexity` LC state always falls
through to `checkRecurrence` — the complexity condition is never the deciding
condition of a judgment. -/
theorem vl_complexity_condition_vacuous (t : Int) (c : VLConfig)
    (h : VLReach t c) :
    (∀ r ∈ c.ctx.errorHistory, r.complexityDelta = ComplexityDelta.unchanged) ∧
    checkGrowingComplexity c.ctx.toLossCutContext = false ∧
    (∀ now : Int, c.state = VLState.lossCutJudgment LCState.checkComplexity →
      vlEps c now =
        some { state := VLState.lossCutJudgment LCState.checkRecurrence,
               ctx := c.ctx }) := by
  have hall := (vlReach_ctx_invariant t c h).2
  have hgrow : checkGrowingComplexity c.ctx.toLossCutContext = false := by
    unfold checkGrowingComplexity
    cases hl : c.ctx.toLossCutContext.errorHistory.getLast? with
    | none => rfl
    | some latest =>
        obtain ⟨hne, hx⟩ := List.mem_getLast?_eq_getLast (by simpa using hl)
        have hmem : latest ∈ c.ctx.errorHistory := hx ▸ List.getLast_mem hne
        simp [hall latest hmem]
  refine ⟨hall, hgrow, ?_⟩
  intro now hstate
  obtain ⟨sc, cc⟩ := c
  simp only at hstate
  subst hstate
  simp [vlEps, hgrow]

/-- The failing typecheck result used by the C10 witness run. -/
def c10ErrW : ErrorInfo :=
  { step := CheckStep.typecheck, message := "E", timestamp := 1 }

/-- Context after the C10 witness run's recorded typecheck failure. -/
def c10CtxW : VLContext := vlRecordFailure (vlInit 0).ctx c10ErrW

/-- The C10 witness configuration: the LC chain inside VL, sitting at its
`checkComplexity` state. -/
def c10ConfigW : VLConfig :=
  { state := VLState.lossCutJudgment LCState.checkComplexity, ctx := c10CtxW }

/-- Witness for C10: after a real failure run reaching `checkComplexity`,
the chain falls through to `checkRecurrence`. -/
theorem vl_complexity_condition_vacuous_witness :
    vlEps c10ConfigW 0 =
      some { state := VLState.lossCutJudgment LCState.checkRecurrence,
             ctx := c10CtxW } := by
  have h1 : VLReach 0 (VLConfig.mk (VLState.lossCutJudgment LCState.recordErrorState) c10CtxW) :=
    VLReach.evt (VLEvent.typecheckComplete { passed := false, error := some c10ErrW })
      (by decide) VLReach.init
  have h2 : VLReach 0 (VLConfig.mk (VLState.lossCutJudgment LCState.check3Times) c10CtxW) :=
    VLReach.evt VLEvent.errorStateRecorded (by decide) h1
  have h3 : VLReach 0 (VLConfig.mk (VLState.lossCutJudgment LCState.check30Min) c10CtxW) :=
    VLReach.eps 0 (by decide) h2
  have h4 : VLReach 0 c10ConfigW := VLReach.eps 0 (by decide) h3
  exact (vl_complexity_condition_vacuous 0 c10ConfigW h4).2.2 0 rfl

/-! ## Claim C6: the source of the policyViolation output flag -/

/-- Context for the C6 counterexample: the collaboration-principle monitor
stored a violation, the AI-principle monitor stored nothing. -/
def c6CtxW : VLContext :=
  { errorCount := 0, startedAt := 0, lastError := none, errorHistory := [],
    lossCutDecision := none, currentStep := CheckStep.typecheck,
    collaborationCheckResult := some { passed := false, violations := ["v"] },
    aiPrincipleCheckResult := none }

/-- C6 counterexample: a collaboration-principle violation alone does NOT set
the output's `principleViolation` flag — the output reads only the
AI-principle check result (`verification-loop.ts`, lines 364–366). -/
theorem vl_collaboration_violation_not_in_output :
    c6CtxW.collaborationCheckResult =
      some { passed := false, violations := ["v"] } ∧
    (vlOutput c6CtxW).principleViolation = false := ⟨rfl, rfl⟩

/-- C6 (amended): the output's `principleViolation` is true iff the stored
agent-behavior (AI) principle check result exists and failed — independent of
the pass/abandon outcome; the collaboration-principle monitor, though it runs
(with the AI-principle monitor) on every entry of every check stage, does not
feed the output. -/
theorem vl_policy_violation_iff_ai_check (ctx : VLContext) :
    ((vlOutput ctx).principleViolation = true ↔
      ∃ r, ctx.aiPrincipleCheckResult = some r ∧ r.passed = false) ∧
    (VLAction.checkCollaborationPrinciples ∈ vlEntryActions VLState.typecheck ∧
     VLAction.checkAIPrinciples ∈ vlEntryActions VLState.typecheck ∧
     VLAction.checkCollaborationPrinciples ∈ vlEntryActions VLState.lint ∧
     VLAction.checkAIPrinciples ∈ vlEntryActions VLState.lint ∧
     VLAction.checkCollaborationPrinciples ∈ vlEntryActions VLState.test ∧
     VLAction.checkAIPrinciples ∈ vlEntryActions VLState.test) := by
  constructor
  · unfold vlOutput
    cases hai : ctx.aiPrincipleCheckResult with
    | none => simp [hai]
    | some r => simp [hai]
  · refine ⟨?_, ?_, ?_, ?_, ?_, ?_⟩ <;> simp [vlEntryActions]

/-! ## Orchestrator (MainFlow) (`main-flow.ts`) -/

/-- `BrightLineViolation` (`types.ts`). -/
inductive BrightLineViolation where
  | bl1HumanJudgment
  | bl2PreDeployCheck
  | bl3HumanReview
  | bl4IndependentVerify
deriving DecidableEq, Repr

/-- `BrightLinesResult` (`types.ts`). -/
structure BrightLinesResult where
  hasViolation : Bool
  violations : List BrightLineViolation
deriving DecidableEq, Repr

/-- `ExecutionResult` (`types.ts`): output of the human or AI execution task. -/
structure ExecutionResult where
  output : String
  isAiGenerated : Bool
  humanReviewed : Bool
deriving DecidableEq, Repr

/-- `LevelResult` (`types.ts`). -/
structure LevelResult where
  passed : Bool
  issues : List String
deriving DecidableEq, Repr

/-- The `evaluationResults` record of `L0L3CheckContext` (`types.ts`). -/
structure EvaluationResults where
  l0 : Option LevelResult
  l1 : Option LevelResult
  l2 : Option LevelResult
  l3 : Option LevelResult
deriving DecidableEq, Repr

/-- `L0L3CheckOutput` (`types.ts`): the SP-1 gate's terminal output. -/
structure L0L3CheckOutput where
  result : EvaluationResults
  allPassed : Bool
deriving DecidableEq, Repr

/-- `TaskCharacteristic` (`types.ts`). -/
inductive TaskCharacteristic where
  | initialDraft
  | styleUnification
  | gapDetection
  | designDecision
  | domainSpecific
  | unknown
deriving DecidableEq, Repr

/-- `DivisionResult` (`types.ts`). -/
inductive DivisionResult where
  | aiLed
  | humanLed
deriving DecidableEq, Repr

/-- `PromptTechnique` (`types.ts`). -/
inductive PromptTechnique where
  | zeroShot
  | chainOfThought
  | treeOfThoughts
  | react
  | selfConsistency
deriving DecidableEq, Repr

/-- `SP2Output` (`types.ts`): the classifier sub-process's terminal output. -/
structure SP2Output where
  result : DivisionResult
  promptTechnique : Option PromptTechnique
  taskCharacteristic : TaskCharacteristic
deriving DecidableEq, Repr

/-- The verdict stored in the orchestrator's `sp1Result` (`types.ts`). -/
inductive Sp1Verdict where
  | allPass
  | failed
deriving DecidableEq, Repr

/-- The orchestrator's stored SP-1 summary (`types.ts`, `MainFlowContext`). -/
structure Sp1Result where
  result : Sp1Verdict
  failedLevel : Option Int
  evaluatedLevels : Nat
deriving DecidableEq, Repr

/-- `MainFlowContext` (`types.ts`). -/
structure MainFlowContext where
  taskDescription : String
  brightLinesResult : BrightLinesResult
  sp1Result : Option Sp1Result
  adjustmentCount : Nat
  sp2Result : Option SP2Output
  executionResult : Option ExecutionResult
  sp3Result : Option SP3OutputExtended
  lastError : Option ErrorInfo
  errorHistory : List ErrorRecord
  recoveryResult : Option RecoveryFlowOutput
  hasPrincipleViolation : Bool
deriving DecidableEq, Repr

/-- `createMainFlowContext` (`main-flow.ts`, lines 49–63). -/
def createMainFlowContext (taskDescription : String) : MainFlowContext :=
  { taskDescription := taskDescription,
    brightLinesResult := { hasViolation := false, violations := [] },
    sp1Result := none,
    adjustmentCount := 0,
    sp2Result := none,
    executionResult := none,
    sp3Result := none,
    lastError := none,
    errorHistory := [],
    recoveryResult := none,
    hasPrincipleViolation := false }

/-- States of `mainFlowMachine` (`main-flow.ts`). -/
inductive MFState where
  | brightLinesCheck
  | brightLinesFix
  | sp1Check
  | taskAdjustment
  | sp2Division
  | humanExecution
  | aiExecution
  | humanReview
  | sp3Verification
  | recoveryFlow
  | taskCompleted
  | recoveryExit
deriving DecidableEq, Repr

/-- Orchestrator events: the external `MainFlowEvent`s the machine handles,
plus one completion event per invoked sub-machine carrying its terminal
output (the `invoke` / `onDone` connections). -/
inductive MFEvent where
  | brightLinesPass
  | brightLinesFail (violations : List BrightLineViolation)
  | brightLinesFixed
  | adjustmentDone
  | executeHuman (output : String)
  | executeAi (output : String)
  | humanReviewDone (approved : Bool)
  | sp1Done (output : L0L3CheckOutput)
  | sp2Done (output : SP2Output)
  | sp3Done (output : SP3OutputExtended)
  | rfDone (output : RecoveryFlowOutput)
deriving DecidableEq, Repr

/-- Discriminator for the human-review verdict event. -/
def MFEvent.isHumanReviewDone : MFEvent → Bool
  | MFEvent.humanReviewDone _ => true
  | _ => false

/-- A configuration of the orchestrator. -/
structure MFConfig where
  state : MFState
  ctx : MainFlowContext
deriving DecidableEq, Repr

/-- The orchestrator's transition function (`main-flow.ts`, lines 116–389).
The `sp3Done` interpretation preserves the source's guard order: the
`passed` guard is evaluated before the `principleViolation` guard, which is
evaluated before the loss-cut fallback.  `humanReviewDone` reads
`context.executionResult!`, so it is rejected when no execution result is
stored. -/
def mfStep (c : MFConfig) (e : MFEvent) : Option MFConfig :=
  match c.state, e with
  | MFState.brightLinesCheck, MFEvent.brightLinesPass =>
      some { state := MFState.sp1Check, ctx := c.ctx }
  | MFState.brightLinesCheck, MFEvent.brightLinesFail v =>
      some { state := MFState.brightLinesFix,
             ctx := { c.ctx with brightLinesResult := { hasViolation := true, violations := v } } }
  | MFState.brightLinesFix, MFEvent.brightLinesFixed =>
      some { state := MFState.brightLinesCheck,
             ctx := { c.ctx with brightLinesResult := { hasViolation := false, violations := [] } } }
  | MFState.sp1Check, MFEvent.sp1Done out =>
      if out.allPassed then
        some { state := MFState.sp2Division,
               ctx := { c.ctx with sp1Result := some { result := Sp1Verdict.allPass, failedLevel := none, evaluatedLevels := 4 } } }
      else
        some { state := MFState.taskAdjustment,
               ctx := { c.ctx with sp1Result := some { result := Sp1Verdict.failed, failedLevel := none, evaluatedLevels := 4 } } }
  | MFState.taskAdjustment, MFEvent.adjustmentDone =>
      some { state := MFState.sp1Check,
             ctx := { c.ctx with adjustmentCount := c.ctx.adjustmentCount + 1, sp1Result := none } }
  | MFState.sp2Division, MFEvent.sp2Done out =>
      if out.result = DivisionResult.aiLed then
        some { state := MFState.aiExecution, ctx := { c.ctx with sp2Result := some out } }
      else
        some { state := MFState.humanExecution, ctx := { c.ctx with sp2Result := some out } }
  | MFState.humanExecution, MFEvent.executeHuman o =>
      some { state := MFState.sp3Verification,
             ctx := { c.ctx with executionResult := some { output := o, isAiGenerated := false, humanReviewed := true } } }
  | MFState.aiExecution, MFEvent.executeAi o =>
      some { state := MFState.humanReview,
             ctx := { c.ctx with executionResult := some { output := o, isAiGenerated := true, humanReviewed := false } } }
  | MFState.humanReview, MFEvent.humanReviewDone approved =>
      match c.ctx.executionResult with
      | some er =>
          some { state := MFState.sp3Verification,
                 ctx := { c.ctx with executionResult := some { er with humanReviewed := approved } } }
      | none => none
  | MFState.sp3Verification, MFEvent.sp3Done out =>
      if out.passed then
        some { state := MFState.taskCompleted, ctx := { c.ctx with sp3Result := some out } }
      else if out.principleViolation then
        some { state := MFState.brightLinesCheck,
               ctx := { c.ctx with sp3Result := some out, hasPrincipleViolation := true } }
      else
        some { state := MFState.recoveryFlow,
               ctx := { c.ctx with sp3Result := some out, lastError := out.lastError, errorHistory := out.errorHistory } }
  | MFState.recoveryFlow, MFEvent.rfDone out =>
      some { state := MFState.recoveryExit, ctx := { c.ctx with recoveryResult := some out } }
  | _, _ => none

/-! ## Claim C1: interpretation order of the verification loop's output -/

/-- Verification-loop output with both `passed` and `principleViolation` set,
for the C1 counterexample. -/
def c1OutW : SP3OutputExtended :=
  { passed := true, lossCut := false, lastError := none, errorHistory := [],
    principleViolation := true }

/-- Orchestrator configuration at the SP-3 invoke state, for the C1
counterexample. -/
def c1ConfigW : MFConfig :=
  { state := MFState.sp3Verification, ctx := createMainFlowContext "" }

/-- C1 counterexample: on an output record with `policyViolation = true` AND
`passed = true`, the orchestrator transitions to the terminal `taskCompleted`
state, not to `brightLinesCheck` — the `passed` guard is evaluated first
(`main-flow.ts`, lines 320–345). -/
theorem mf_passed_wins_over_violation :
    (mfStep c1ConfigW (MFEvent.sp3Done c1OutW)).map MFConfig.state =
      some MFState.taskCompleted ∧
    MFState.taskCompleted ≠ MFState.brightLinesCheck := by
  exact ⟨rfl, by decide⟩

/-- C1 (amended): the orchestrator interprets the verification loop's output
with the `passed` branch first: if `passed` it completes (even when
`policyViolation` is also true); otherwise, if `policyViolation`, it loops
back to the gate-recheck state `brightLinesCheck`, discarding the abandoned
outcome; otherwise it enters the recovery flow.  The policy-violation branch
takes priority only over the loss-cut branch. -/
theorem mf_sp3_outcome_interpretation (ctx : MainFlowContext)
    (out : SP3OutputExtended) :
    (out.passed = true →
      mfStep { state := MFState.sp3Verification, ctx := ctx } (MFEvent.sp3Done out) =
        some { state := MFState.taskCompleted,
               ctx := { ctx with sp3Result := some out } }) ∧
    (out.passed = false → out.principleViolation = true →
      mfStep { state := MFState.sp3Verification, ctx := ctx } (MFEvent.sp3Done out) =
        some { state := MFState.brightLinesCheck,
               ctx := { ctx with sp3Result := some out, hasPrincipleViolation := true } }) ∧
    (out.passed = false → out.principleViolation = false →
      mfStep { state := MFState.sp3Verification, ctx := ctx } (MFEvent.sp3Done out) =
        some { state := MFState.recoveryFlow,
               ctx := { ctx with sp3Result := some out, lastError := out.lastError, errorHistory := out.errorHistory } }) := by
  refine ⟨?_, ?_, ?_⟩ <;> intros <;> simp [mfStep, *]

/-- Verification-loop output with only `principleViolation` set, for the C1
witness. -/
def c1AmOutW : SP3OutputExtended :=
  { passed := false, lossCut := false, lastError := none, errorHistory := [],
    principleViolation := true }

/-- Witness for the amended C1: a non-passed output with a policy violation
loops the orchestrator back to `brightLinesCheck`. -/
theorem mf_sp3_outcome_interpretation_witness :
    mfStep { state := MFState.sp3Verification, ctx := createMainFlowContext "" }
        (MFEvent.sp3Done c1AmOutW) =
      some { state := MFState.brightLinesCheck,
             ctx := { createMainFlowContext "" with sp3Result := some c1AmOutW, hasPrincipleViolation := true } } := by
  exact (mf_sp3_outcome_interpretation (createMainFlowContext "") c1AmOutW).2.1 rfl rfl

/-! ## Claim C7: AI-generated output cannot complete without a human review -/

/-- Orchestrator runs that never receive a `HUMAN_REVIEW_DONE` event. -/
inductive MFReachNoHR (td : String) : MFConfig → Prop where
  | init : MFReachNoHR td { state := MFState.brightLinesCheck, ctx := createMainFlowContext td }
  | step {c c' : MFConfig} (e : MFEvent) (hne : e.isHumanReviewDone = false)
      (h : mfStep c e = some c') (hr : MFReachNoHR td c) : MFReachNoHR td c'

/-- On a review-free run, an AI-generated execution result pins the
orchestrator in the `humanReview` state. -/
theorem mfNoHR_invariant (td : String) :
    ∀ c : MFConfig, MFReachNoHR td c →
      ∀ er : ExecutionResult, c.ctx.executionResult = some er →
        er.isAiGenerated = true → c.state = MFState.humanReview := by
  intro c h
  induction h with
  | init =>
      intro er her _hai
      simp [createMainFlowContext] at her
  | @step c c' e hne hstep hr ih =>
      intro er her hai
      obtain ⟨sc, cc⟩ := c
      obtain ⟨sc', cc'⟩ := c'
      cases sc with
      | brightLinesCheck =>
          cases e <;> simp only [mfStep] at hstep <;>
            first
              | exact Option.noConfusion hstep
              | ((try simp only [Option.some.injEq, MFConfig.mk.injEq] at hstep)
                 obtain ⟨rfl, rfl⟩ := hstep
                 exact absurd (ih er her hai) (by simp))
      | brightLinesFix =>
          cases e <;> simp only [mfStep] at hstep <;>
            first
              | exact Option.noConfusion hstep
              | ((try simp only [Option.some.injEq, MFConfig.mk.injEq] at hstep)
                 obtain ⟨rfl, rfl⟩ := hstep
                 exact absurd (ih er her hai) (by simp))
      | sp1Check =>
          cases e <;> simp only [mfStep] at hstep <;> (try split at hstep) <;>
            first
              | exact Option.noConfusion hstep
              | ((try simp only [Option.some.injEq, MFConfig.mk.injEq] at hstep)
                 obtain ⟨rfl, rfl⟩ := hstep
                 exact absurd (ih er her hai) (by simp))
      | taskAdjustment =>
          cases e <;> simp only [mfStep] at hstep <;>
            first
              | exact Option.noConfusion hstep
              | ((try simp only [Option.some.injEq, MFConfig.mk.injEq] at hstep)
                 obtain ⟨rfl, rfl⟩ := hstep
                 exact absurd (ih er her hai) (by simp))
      | sp2Division =>
          cases e <;> simp only [mfStep] at hstep <;> (try split at hstep) <;>
            first
              | exact Option.noConfusion hstep
              | ((try simp only [Option.some.injEq, MFConfig.mk.injEq] at hstep)
                 obtain ⟨rfl, rfl⟩ := hstep
                 exact absurd (ih er her hai) (by simp))
      | humanExecution =>
          cases e <;> simp only [mfStep] at hstep <;>
            first
              | exact Option.noConfusion hstep
              | ((try simp only [Option.some.injEq, MFConfig.mk.injEq] at hstep)
                 obtain ⟨rfl, rfl⟩ := hstep
                 simp at her
                 subst her
                 simp at hai)
      | aiExecution =>
          cases e <;> simp only [mfStep] at hstep <;>
            first
              | exact Option.noConfusion hstep
              | ((try simp only [Option.some.injEq, MFConfig.mk.injEq] at hstep)
                 obtain ⟨rfl, rfl⟩ := hstep
                 rfl)
      | humanReview =>
          cases e <;>
            first
              | (simp only [mfStep] at hstep
                 exact Option.noConfusion hstep)
              | simp [MFEvent.isHumanReviewDone] at hne
      | sp3Verification =>
          cases e <;> simp only [mfStep] at hstep <;> (try split at hstep) <;>
            (try split at hstep) <;>
            first
              | exact Option.noConfusion hstep
              | ((try simp only [Option.some.injEq, MFConfig.mk.injEq] at hstep)
                 obtain ⟨rfl, rfl⟩ := hstep
                 exact absurd (ih er her hai) (by simp))
      | recoveryFlow =>
          cases e <;> simp only [mfStep] at hstep <;>
            first
              | exact Option.noConfusion hstep
              | ((try simp only [Option.some.injEq, MFConfig.mk.injEq] at hstep)
                 obtain ⟨rfl, rfl⟩ := hstep
                 exact absurd (ih er her hai) (by simp))
      | taskCompleted =>
          cases e <;> simp only [mfStep] at hstep <;> exact Option.noConfusion hstep
      | recoveryExit =>
          cases e <;> simp only [mfStep] at hstep <;> exact Option.noConfusion hstep

/-- C7: in every run of the orchestrator in which no `HUMAN_REVIEW_DONE`
event was ever delivered, the terminal `taskCompleted` state cannot hold an
AI-generated execution result: a model-produced output that is never
explicitly approved or rejected never allows the orchestrator to complete. -/
theorem mf_ai_output_requires_review (td : String) (c : MFConfig)
    (h : MFReachNoHR td c) :
    ¬(c.state = MFState.taskCompleted ∧
      ∃ er, c.ctx.executionResult = some er ∧ er.isAiGenerated = true) := by
  rintro ⟨hstate, er, her, hai⟩
  have hinv := mfNoHR_invariant td c h er her hai
  rw [hstate] at hinv
  exact absurd hinv (by decide)

/-- SP-1 gate output for the C7 witness run. -/
def c7Sp1OutW : L0L3CheckOutput :=
  { result := { l0 := none, l1 := none, l2 := none, l3 := none }, allPassed := true }

/-- Classifier output (human-led) for the C7 witness run. -/
def c7Sp2OutW : SP2Output :=
  { result := DivisionResult.humanLed, promptTechnique := none,
    taskCharacteristic := TaskCharacteristic.unknown }

/-- Verification-loop output (passed) for the C7 witness run. -/
def c7Sp3OutW : SP3OutputExtended :=
  { passed := true, lossCut := false, lastError := none, errorHistory := [],
    principleViolation := false }

/-- Context along the C7 witness run, after the SP-1 gate. -/
def c7CtxAW : MainFlowContext :=
  { createMainFlowContext "" with
    sp1Result := some { result := Sp1Verdict.allPass, failedLevel := none, evaluatedLevels := 4 } }

/-- Context along the C7 witness run, after the classifier. -/
def c7CtxBW : MainFlowContext := { c7CtxAW with sp2Result := some c7Sp2OutW }

/-- Context along the C7 witness run, after human execution. -/
def c7CtxCW : MainFlowContext :=
  { c7CtxBW with executionResult := some { output := "o", isAiGenerated := false, humanReviewed := true } }

/-- Context along the C7 witness run, after the verification loop. -/
def c7CtxDW : MainFlowContext := { c7CtxCW with sp3Result := some c7Sp3OutW }

/-- The completed configuration of the C7 witness run. -/
def c7FinalW : MFConfig := { state := MFState.taskCompleted, ctx := c7CtxDW }

/-- Witness for C7: a concrete review-free run that completes on the
human-led path; the theorem applies to it and indeed its execution result is
not AI-generated. -/
theorem mf_ai_output_requires_review_witness :
    ¬(c7FinalW.state = MFState.taskCompleted ∧
      ∃ er, c7FinalW.ctx.executionResult = some er ∧ er.isAiGenerated = true) := by
  have h1 : MFReachNoHR "" { state := MFState.sp1Check, ctx := createMainFlowContext "" } :=
    MFReachNoHR.step MFEvent.brightLinesPass rfl (by decide) MFReachNoHR.init
  have h2 : MFReachNoHR "" { state := MFState.sp2Division, ctx := c7CtxAW } :=
    MFReachNoHR.step (MFEvent.sp1Done c7Sp1OutW) rfl (by decide) h1
  have h3 : MFReachNoHR "" { state := MFState.humanExecution, ctx := c7CtxBW } :=
    MFReachNoHR.step (MFEvent.sp2Done c7Sp2OutW) rfl (by decide) h2
  have h4 : MFReachNoHR "" { state := MFState.sp3Verification, ctx := c7CtxCW } :=
    MFReachNoHR.step (MFEvent.executeHuman "o") rfl (by decide) h3
  have h5 : MFReachNoHR "" c7FinalW :=
    MFReachNoHR.step (MFEvent.sp3Done c7Sp3OutW) rfl (by decide) h4
  exact mf_ai_output_requires_review "" c7FinalW h5

end AICollab
